import Mathlib

/-!
Verification development for SystemdShield (src/src/models.py, analyzer.py,
hardening.py, main.py).  The Python sources are shallowly embedded: pure code
becomes Lean functions, subprocess invocations become values supplied by an
explicit environment, the filesystem becomes a map from path strings to file
contents, and Python floats are modelled as exact rationals (none of the
properties below depends on rounding).
-/

namespace SystemdShield

/-! ### String helpers modelling the Python primitives used by the sources -/

/-- Python whitespace characters, as stripped by str.strip() and matched by
the regex class for whitespace (ASCII range, which covers all tool output). -/
def isPyWs (c : Char) : Bool :=
  c = ' ' || c = '\t' || c = '\n' || c = '\r' || c = '\x0b' || c = '\x0c'

/-- Python str.strip(): remove leading and trailing whitespace. -/
def pyStrip (s : String) : String :=
  String.mk (((s.data.dropWhile isPyWs).reverse.dropWhile isPyWs).reverse)

/-- Python substring containment test: needle in haystack. -/
def strContains (hay needle : String) : Bool :=
  (List.range (hay.data.length + 1)).any (fun i => needle.data.isPrefixOf (hay.data.drop i))

/-- Python s.startswith(pre). -/
def pyStartsWith (s pre : String) : Bool := pre.data.isPrefixOf s.data

/-- Python s.endswith(suffix). -/
def pyEndsWith (s suffix : String) : Bool := suffix.data.isSuffixOf s.data

/-- Python s[:-n] for positive n: drop the last n characters. -/
def pyDropRight (s : String) (n : Nat) : String :=
  String.mk (s.data.take (s.data.length - n))

/-- First whitespace-separated token of a line; Python line.split() returns a
non-empty list exactly when this token is non-empty, and its first element is
this token. -/
def firstToken (l : List Char) : List Char :=
  (l.dropWhile Char.isWhitespace).takeWhile (fun c => !(Char.isWhitespace c))

/-- Python '\n'.join(lines) (models.py to_systemd_config). -/
def joinLines : List String → String
  | [] => ""
  | [l] => l
  | l :: ls => l ++ "\n" ++ joinLines ls

/-- Python s.split('\n') at character level: one more piece than the number of
newline characters. -/
def splitLinesChars : List Char → List (List Char)
  | [] => [[]]
  | c :: rest =>
    if c = '\n' then [] :: splitLinesChars rest
    else
      match splitLinesChars rest with
      | [] => [[c]]
      | l :: ls => (c :: l) :: ls

/-! ### Data model (src/src/models.py) -/

/-- models.py 22-36, HardeningOverrides: the fixed set of systemd directives a
profile may set, each optional and absent by default. -/
structure HardeningOverrides where
  NoNewPrivileges : Option String := none
  IPAddressDeny : Option String := none
  IPAddressAllow : Option String := none
  PrivateTmp : Option String := none
  ProtectKernelModules : Option String := none
  ProtectKernelTunables : Option String := none
  ProtectControlGroups : Option String := none
  RestrictRealtime : Option String := none
  LockPersonality : Option String := none
  ProtectHome : Option String := none
  ProtectSystem : Option String := none
  MemoryDenyWriteExecute : Option String := none
  RestrictSUIDSGID : Option String := none
  deriving DecidableEq

/-- pydantic model_dump as ordered (field name, value) pairs; order is the
declaration order of the fields, which model_dump preserves. -/
def HardeningOverrides.fieldPairs (o : HardeningOverrides) : List (String × Option String) :=
  [("NoNewPrivileges", o.NoNewPrivileges),
   ("IPAddressDeny", o.IPAddressDeny),
   ("IPAddressAllow", o.IPAddressAllow),
   ("PrivateTmp", o.PrivateTmp),
   ("ProtectKernelModules", o.ProtectKernelModules),
   ("ProtectKernelTunables", o.ProtectKernelTunables),
   ("ProtectControlGroups", o.ProtectControlGroups),
   ("RestrictRealtime", o.RestrictRealtime),
   ("LockPersonality", o.LockPersonality),
   ("ProtectHome", o.ProtectHome),
   ("ProtectSystem", o.ProtectSystem),
   ("MemoryDenyWriteExecute", o.MemoryDenyWriteExecute),
   ("RestrictSUIDSGID", o.RestrictSUIDSGID)]

/-- models.py 38-43, to_systemd_config: header line then one "field=value" line
per field present in model_dump(exclude_none=True), joined with newlines. -/
def HardeningOverrides.configLines (o : HardeningOverrides) : List String :=
  "[Service]" :: o.fieldPairs.filterMap (fun p => p.2.map (fun v => p.1 ++ "=" ++ v))

def HardeningOverrides.to_systemd_config (o : HardeningOverrides) : String :=
  joinLines o.configLines

/-- models.py 51-54. -/
structure HardeningProfile where
  description : String
  overrides : HardeningOverrides
  deriving DecidableEq

/-- models.py 57-60; Python dicts become association lists with unique-key
lookup discipline (first binding wins, as a dict has one binding per key). -/
structure ProfilesConfig where
  profiles : List (String × HardeningProfile)
  service_mappings : List (String × String) := []
  deriving DecidableEq

/-- models.py 63-66. -/
structure ExclusionsConfig where
  excluded_services : List String
  exclusion_reasons : Option (List (String × String)) := none
  deriving DecidableEq

/-- models.py 69-76; exposure scores are Python floats, modelled as exact
rationals. -/
structure ServiceAnalysis where
  name : String
  exposure_score : Option ℚ := none
  exposure_level : Option String := none
  is_active : Bool := false
  is_enabled : Bool := false
  suggested_profile : Option String := none
  deriving DecidableEq

/-- models.py 79-87. -/
structure HardeningResult where
  service_name : String
  success : Bool
  profile_applied : Option String := none
  previous_score : Option ℚ := none
  new_score : Option ℚ := none
  rollback_performed : Bool := false
  error : Option String := none
  deriving DecidableEq

/-! ### Environment model for subprocess invocations -/

/-- Outcome of one external command invocation.  With check=True a non-zero
exit raises CalledProcessError; a missing executable raises FileNotFoundError
from subprocess.run regardless of the check flag. -/
inductive RunOutcome where
  | ok (stdout : String)
  | exitFail (stdout : String)
  | missing
  deriving DecidableEq

/-- Python exceptions that can cross the functions modelled here. -/
inductive PyExc where
  | calledProcessError
  | fileNotFoundError
  deriving DecidableEq

/-- subprocess.run without check=True: a non-zero exit still returns the
captured output, only a missing executable raises. -/
def runNoCheck : RunOutcome → Except PyExc String
  | .ok s => .ok s
  | .exitFail s => .ok s
  | .missing => .error .fileNotFoundError

/-! ### Analyzer (src/src/analyzer.py) -/

/-- analyzer.py 23-27: for one line of systemctl output, line.split() then keep
parts[0] when it ends in ".service". -/
def parseServiceLine (line : String) : Option String :=
  let t := firstToken line.data
  if t.isEmpty then none
  else if pyEndsWith (String.mk t) ".service" then some (String.mk t) else none

/-- Python splitlines at the granularity used here: split on newlines. -/
def pySplitLines (s : String) : List String :=
  (splitLinesChars s.data).map String.mk

/-- analyzer.py 13-31, get_all_services.  The try block only catches
CalledProcessError (non-zero exit with check=True); a missing systemctl
executable raises FileNotFoundError through to the caller. -/
def get_all_services (listUnits : RunOutcome) : Except PyExc (List String) :=
  match listUnits with
  | .ok out => .ok ((pySplitLines out).filterMap parseServiceLine)
  | .exitFail _ => .ok []
  | .missing => .error .fileNotFoundError

/-- Characters of the regex class for digits-or-dot in the score group. -/
def isScoreChar (c : Char) : Bool := c.isDigit || c = '.'

/-- Characters of the regex word class (ASCII range, which covers the level
labels produced by the tool). -/
def isWordChar (c : Char) : Bool := c.isAlphanum || c = '_'

/-- Literal prefix of the exposure pattern in analyzer.py 50. -/
def litChars : List Char := "Overall exposure level".toList

/-- Matcher for the pattern part after the colon: one or more whitespace, the
score group (one or more digit-or-dot), one or more whitespace, the level
group (one or more word characters).  The character classes of adjacent
pieces are disjoint, so greedy maximal runs are the unique way to match. -/
def matchTail (l : List Char) : Option (String × String) :=
  let ws1 := l.takeWhile isPyWs
  if ws1.isEmpty then none else
  let r1 := l.drop ws1.length
  let sc := r1.takeWhile isScoreChar
  if sc.isEmpty then none else
  let r2 := r1.drop sc.length
  let ws2 := r2.takeWhile isPyWs
  if ws2.isEmpty then none else
  let r3 := r2.drop ws2.length
  let wd := r3.takeWhile isWordChar
  if wd.isEmpty then none else
  some (String.mk sc, String.mk wd)

/-- Lazy scan for the ".*?:" part of the pattern: at each position first try
to read the colon and the tail; on failure the lazy dot consumes one more
character (a colon whose tail fails is itself consumed by the dot), and the
dot never consumes a newline. -/
def lazySearch : List Char → Option (String × String)
  | [] => none
  | c :: rest =>
    if c = ':' then
      match matchTail rest with
      | some r => some r
      | none => lazySearch rest
    else if c = '\n' then none
    else lazySearch rest

/-- analyzer.py 49-52: re.search for the exposure pattern.  re.search returns
the match with the leftmost starting position, so the scan tries each start
from the left and keeps the first position where the whole pattern matches. -/
def searchFrom : List Char → Option (String × String)
  | [] => none
  | c :: rest =>
    if litChars.isPrefixOf (c :: rest) then
      match lazySearch ((c :: rest).drop litChars.length) with
      | some r => some r
      | none => searchFrom rest
    else searchFrom rest

/-- Value of a decimal digit list read as a natural number. -/
def digitsToNat (l : List Char) : Nat :=
  l.foldl (fun n c => 10 * n + (c.toNat - '0'.toNat)) 0

/-- Python float() applied to a string drawn from the digit-or-dot class:
defined exactly when the string has at most one dot and at least one digit
(otherwise float() raises ValueError), with the exact decimal value. -/
def pyFloatOfScore (s : String) : Option ℚ :=
  let cs := s.data
  if cs.count '.' ≤ 1 && cs.any Char.isDigit then
    let intPart := cs.takeWhile (fun c => c ≠ '.')
    let fracPart := cs.drop (intPart.length + 1)
    some ((digitsToNat intPart : ℚ) + (digitsToNat fracPart : ℚ) / ((10 : ℚ) ^ fracPart.length))
  else none

/-- Environment for one analyze_service call: outcomes of its three
subprocess invocations. -/
structure AnalyzeEnv where
  security : RunOutcome
  isActive : RunOutcome
  isEnabled : RunOutcome

/-- analyzer.py 33-88, analyze_service.  The surrounding try catches every
exception, so the function can only return a value or none, never raise:
missing executables and the ValueError raised by float() on a score group
such as "..." all collapse to none.  Non-zero exits do not raise here since
every run uses check=False. -/
def analyze_service (env : AnalyzeEnv) (service_name : String) : Option ServiceAnalysis :=
  match runNoCheck env.security, runNoCheck env.isActive, runNoCheck env.isEnabled with
  | .ok secOut, .ok actOut, .ok enOut =>
    let act := pyStrip actOut == "active"
    let en := pyStrip enOut == "enabled" || pyStrip enOut == "static"
    match searchFrom secOut.data with
    | some (scStr, lvStr) =>
      match pyFloatOfScore scStr with
      | some sc =>
        some { name := service_name, exposure_score := some sc,
               exposure_level := some lvStr, is_active := act, is_enabled := en }
      | none => none
    | none =>
      some { name := service_name, exposure_score := none,
             exposure_level := none, is_active := act, is_enabled := en }
  | _, _, _ => none

/-- Sort key of analyzer.py 100: x.exposure_score or 0. -/
def sortKey (a : ServiceAnalysis) : ℚ :=
  match a.exposure_score with
  | some q => if q = 0 then 0 else q
  | none => 0

/-- Stable insertion into a descending-by-key list, placing the new element
after existing elements of equal key, as Python's stable sort does. -/
def insertDesc (a : ServiceAnalysis) : List ServiceAnalysis → List ServiceAnalysis
  | [] => [a]
  | b :: bs => if sortKey b < sortKey a then a :: b :: bs else b :: insertDesc a bs

/-- analyzer.py 100: sorted(..., key=..., reverse=True), a stable descending
sort by key. -/
def sortedDescByScore (l : List ServiceAnalysis) : List ServiceAnalysis :=
  l.foldl (fun acc a => insertDesc a acc) []

/-- Environment for get_high_exposure_services: the list-units outcome plus
one analyze environment per service name. -/
structure AnalyzerEnv where
  listUnits : RunOutcome
  perService : String → AnalyzeEnv

/-- analyzer.py 97: the Python condition
"analysis and analysis.exposure_score and analysis.exposure_score >= threshold";
a score of 0.0 is falsy in Python exactly like an absent score. -/
def keepHighExposure (a : ServiceAnalysis) (threshold : ℚ) : Bool :=
  match a.exposure_score with
  | none => false
  | some q => decide (q ≠ 0) && decide (threshold ≤ q)

/-- analyzer.py 90-100, get_high_exposure_services.  An exception escaping
get_all_services propagates here as well. -/
def get_high_exposure_services (env : AnalyzerEnv) (threshold : ℚ) :
    Except PyExc (List ServiceAnalysis) :=
  match get_all_services env.listUnits with
  | .error e => .error e
  | .ok services =>
    .ok (sortedDescByScore (services.filterMap (fun s =>
      match analyze_service (env.perService s) s with
      | none => none
      | some a => if keepHighExposure a threshold then some a else none)))

/-! ### Hardening engine (src/src/hardening.py) -/

/-- hardening.py 45-49, the loop body of is_excluded for one pattern: a
pattern ending in a star matches by prefix; independently, exact equality of
service name and pattern matches (the equality test is not guarded by the
absence of a star in the pattern). -/
def matchesExclusion (pat service_name : String) : Bool :=
  (pyEndsWith pat "*" && pyStartsWith service_name (pyDropRight pat 1)) ||
    service_name == pat

/-- hardening.py 19-27: the engine state after construction; the loaded
configuration is read-only afterwards. -/
structure HardeningEngine where
  profiles : ProfilesConfig
  exclusions : ExclusionsConfig
  deriving DecidableEq

/-- hardening.py 43-50, is_excluded: first matching pattern wins (any). -/
def HardeningEngine.is_excluded (eng : HardeningEngine) (service_name : String) : Bool :=
  eng.exclusions.excluded_services.any (fun pat => matchesExclusion pat service_name)

/-- hardening.py 59: substring heuristic for network-like names. -/
def networkLike (service_name : String) : Bool :=
  ["network", "wpa", "dhcp"].any (fun x => strContains service_name x)

/-- hardening.py 61: substring heuristic for virtualization-like names. -/
def virtualizationLike (service_name : String) : Bool :=
  ["docker", "libvirt", "virtual"].any (fun x => strContains service_name x)

/-- hardening.py 63: substring heuristic for critical names. -/
def criticalLike (service_name : String) : Bool :=
  ["dbus", "gdm", "login"].any (fun x => strContains service_name x)

/-- hardening.py 52-67, get_profile_for_service: explicit mapping first, then
the three ordered substring heuristics, then the default profile. -/
def HardeningEngine.get_profile_for_service (eng : HardeningEngine) (service_name : String) :
    String :=
  match eng.profiles.service_mappings.lookup service_name with
  | some p => p
  | none =>
    if networkLike service_name then "network_service"
    else if virtualizationLike service_name then "virtualization_service"
    else if criticalLike service_name then "critical_service"
    else "system_service"

/-- hardening.py 106-107: "if not profile_name" is Python truthiness, so both
an absent profile argument and an explicitly given empty string fall through
to auto-detection. -/
def resolve_profile (eng : HardeningEngine) (service_name : String)
    (profile_name : Option String) : String :=
  match profile_name with
  | some p => if p ≠ "" then p else eng.get_profile_for_service service_name
  | none => eng.get_profile_for_service service_name

/-! ### Filesystem and effect model for the mutating operations -/

/-- Filesystem as a map from path to file content. -/
def FS := String → Option String

def fsSet (fs : FS) (path content : String) : FS :=
  fun p => if p = path then some content else fs p

def fsDel (fs : FS) (path : String) : FS :=
  fun p => if p = path then none else fs p

/-- hardening.py 27 and 129-131: paths used by apply_hardening and rollback. -/
def override_dir (service_name : String) : String :=
  "/etc/systemd/system/" ++ service_name ++ ".d"

def override_file (service_name : String) : String :=
  override_dir service_name ++ "/override.conf"

def backup_file (service_name : String) : String :=
  override_dir service_name ++ "/override.conf.backup"

/-- External actions issued by the mutating operations, in order. -/
inductive Effect where
  | mkdir (path : String)
  | daemonReload
  | restart (service : String)
  deriving DecidableEq

/-- Environment for rollback: whether its daemon-reload (check=True)
succeeds.  When it raises, the except inside rollback swallows the error, but
the restart is then never attempted. -/
structure RollbackEnv where
  reloadOk : Bool := true
  deriving DecidableEq

/-- hardening.py 201-218, rollback: restore the backup over the override when
a backup path was given and that file exists; otherwise delete the override
if it exists; then reload and best-effort restart. -/
def rollback (env : RollbackEnv) (fs : FS) (service_name : String)
    (backup : Option String) : FS × List Effect :=
  let ov := override_file service_name
  let fs1 :=
    match backup with
    | some b =>
      match fs b with
      | some c => fsSet fs ov c
      | none => if (fs ov).isSome then fsDel fs ov else fs
    | none => if (fs ov).isSome then fsDel fs ov else fs
  if env.reloadOk then (fs1, [.daemonReload, .restart service_name])
  else (fs1, [.daemonReload])

/-- Environment for one apply_hardening call: the analyze environments for
the baseline and final measurements, success of the two check=True calls
(their exception texts when they raise), and the is-active output observed
after the restart. -/
structure ApplyEnv where
  initialAnalyze : AnalyzeEnv
  finalAnalyze : AnalyzeEnv
  reloadOk : Bool := true
  restartOk : Bool := true
  reloadErrText : String := ""
  restartErrText : String := ""
  postActiveOut : String := "active"
  rollbackEnv : RollbackEnv := {}

/-- hardening.py 69-199, apply_hardening.  Returns the result, the filesystem
after the call, and the external actions issued in order.  The broad except
of lines 189-199 is modelled at its two possible raise sites inside the try
(daemon-reload and restart, both check=True); the file operations themselves
are modelled as total map updates. -/
def apply_hardening (eng : HardeningEngine) (env : ApplyEnv) (fs : FS)
    (service_name : String) (profile_name : Option String) (dry_run : Bool) :
    HardeningResult × FS × List Effect :=
  if eng.is_excluded service_name then
    ({ service_name := service_name, success := false,
       error := some "Service is in exclusion list" }, fs, [])
  else
    match analyze_service env.initialAnalyze service_name with
    | none =>
      ({ service_name := service_name, success := false,
         error := some "Failed to analyze service" }, fs, [])
    | some initial =>
      let previous_score := initial.exposure_score
      let pname := resolve_profile eng service_name profile_name
      match eng.profiles.profiles.lookup pname with
      | none =>
        ({ service_name := service_name, success := false,
           error := some ("Unknown profile: " ++ pname) }, fs, [])
      | some profile =>
        if dry_run then
          ({ service_name := service_name, success := true,
             profile_applied := some pname, previous_score := previous_score }, fs, [])
        else
          let ov := override_file service_name
          let bk := backup_file service_name
          let fs1 := match fs ov with
            | some c => fsSet fs bk c
            | none => fs
          let content := "# Generated by SystemdShield - Profile: " ++ pname ++ "\n"
            ++ profile.overrides.to_systemd_config
          let fs2 := fsSet fs1 ov content
          let eff1 := [Effect.mkdir (override_dir service_name), Effect.daemonReload]
          if env.reloadOk then
            if initial.is_active then
              if env.restartOk then
                if pyStrip env.postActiveOut ≠ "active" then
                  let rb := rollback env.rollbackEnv fs2 service_name (some bk)
                  ({ service_name := service_name, success := false,
                     profile_applied := some pname, previous_score := previous_score,
                     rollback_performed := true,
                     error := some "Service failed health check after hardening" },
                   rb.1, eff1 ++ [Effect.restart service_name] ++ rb.2)
                else
                  let newScore := match analyze_service env.finalAnalyze service_name with
                    | some a => a.exposure_score
                    | none => none
                  ({ service_name := service_name, success := true,
                     profile_applied := some pname, previous_score := previous_score,
                     new_score := newScore }, fs2, eff1 ++ [Effect.restart service_name])
              else
                let rb := rollback env.rollbackEnv fs2 service_name (some bk)
                ({ service_name := service_name, success := false,
                   profile_applied := some pname, previous_score := previous_score,
                   rollback_performed := true, error := some env.restartErrText },
                 rb.1, eff1 ++ [Effect.restart service_name] ++ rb.2)
            else
              let newScore := match analyze_service env.finalAnalyze service_name with
                | some a => a.exposure_score
                | none => none
              ({ service_name := service_name, success := true,
                 profile_applied := some pname, previous_score := previous_score,
                 new_score := newScore }, fs2, eff1)
          else
            let rb := rollback env.rollbackEnv fs2 service_name (some bk)
            ({ service_name := service_name, success := false,
               profile_applied := some pname, previous_score := previous_score,
               rollback_performed := true, error := some env.reloadErrText },
             rb.1, eff1 ++ rb.2)

/-- main.py 194-207, the revert command body: it calls engine.rollback with
the backup argument left at its default of None. -/
def revert (env : RollbackEnv) (fs : FS) (service : String) : FS × List Effect :=
  rollback env fs service none

/-! ### Declarative reading of the exposure pattern

The following predicates state, independently of the search procedure, that
the regex pattern matches at a given place: the literal, then a lazy gap free
of newlines, the colon, and the whitespace/score/whitespace/level tail. -/

/-- The part of the pattern after the literal matches the list l, yielding r:
some newline-free gap, then a colon, then a tail accepted by matchTail. -/
def MatchCompletion (l : List Char) (r : String × String) : Prop :=
  ∃ gap tail, l = gap ++ ':' :: tail ∧ '\n' ∉ gap ∧ matchTail tail = some r

/-- The whole pattern matches at starting position i of s. -/
def MatchAt (s : List Char) (i : Nat) : Prop :=
  litChars <+: s.drop i ∧ ∃ r, MatchCompletion (s.drop (i + litChars.length)) r

/-! ### Predicate written from the specification text, for comparison

The spec sentence behind claim C6 reads exclusion matching as: a pattern
ending in a star matches by prefix, and a pattern containing no star matches
only on exact equality. -/

/-- Exclusion matching as the specification words it (prefix rule for
trailing-star patterns, equality restricted to star-free patterns). -/
def specExclusionMatch (pat service_name : String) : Bool :=
  (pyEndsWith pat "*" && pyStartsWith service_name (pyDropRight pat 1)) ||
  (!(strContains pat "*") && service_name == pat)

/-! ### Concrete fixtures used by witnesses and counterexamples -/

/-- Directive set of the example profile. -/
def sysOverrides : HardeningOverrides :=
  { NoNewPrivileges := some "yes", PrivateTmp := some "yes", IPAddressDeny := some "any" }

/-- Example profile. -/
def sysProfile : HardeningProfile :=
  { description := "General system services", overrides := sysOverrides }

/-- Engine with one profile, no mappings and no exclusions. -/
def engPlain : HardeningEngine :=
  { profiles := { profiles := [("system_service", sysProfile)], service_mappings := [] },
    exclusions := { excluded_services := [] } }

/-- Engine that excludes sshd.service. -/
def engExcl : HardeningEngine :=
  { profiles := { profiles := [("system_service", sysProfile)], service_mappings := [] },
    exclusions := { excluded_services := ["sshd.service"] } }

/-- Analyze environment whose security report has no exposure line and whose
service is active and enabled. -/
def plainAnalyzeEnv : AnalyzeEnv :=
  { security := .ok "", isActive := .ok "active", isEnabled := .ok "enabled" }

/-- Analyze environment for the worked example of the spec. -/
def exposureExampleOut : String := "Overall exposure level for foo.service: 9.6 UNSAFE"

def envExposureExample : AnalyzeEnv :=
  { security := .ok exposureExampleOut, isActive := .ok "active", isEnabled := .ok "enabled" }

/-- Security output with two lines matching the exposure pattern. -/
def twoMatchOut : String :=
  "Overall exposure level for a.service: 1.0 OK\nOverall exposure level for b.service: 9.6 UNSAFE\n"

def envTwoMatch : AnalyzeEnv :=
  { security := .ok twoMatchOut, isActive := .ok "active", isEnabled := .ok "enabled" }

/-- Security output reporting a score of exactly 0.0. -/
def zeroScoreOut : String := "Overall exposure level for zero.service: 0.0 OK"

def envZeroScore : AnalyzeEnv :=
  { security := .ok zeroScoreOut, isActive := .ok "active", isEnabled := .ok "enabled" }

/-- Analyzer environment listing one service whose score is exactly 0.0. -/
def analyzerEnvZero : AnalyzerEnv :=
  { listUnits := .ok "zero.service loaded active running Zero Service",
    perService := fun _ => envZeroScore }

/-- Analysis record produced by envExposureExample. -/
def analysis96 : ServiceAnalysis :=
  { name := "foo.service", exposure_score := some (48/5), exposure_level := some "UNSAFE",
    is_active := true, is_enabled := true }

/-- Analyzer environment listing one high-exposure service. -/
def analyzerEnvHigh : AnalyzerEnv :=
  { listUnits := .ok "foo.service loaded active running Foo Service",
    perService := fun _ => envExposureExample }

/-- Apply environment in which the post-restart health check fails. -/
def envHealthFail : ApplyEnv :=
  { initialAnalyze := plainAnalyzeEnv, finalAnalyze := plainAnalyzeEnv,
    postActiveOut := "failed" }

/-- Apply environment in which everything succeeds. -/
def envHealthy : ApplyEnv :=
  { initialAnalyze := plainAnalyzeEnv, finalAnalyze := plainAnalyzeEnv }

/-- Empty filesystem. -/
def fsEmpty : FS := fun _ => none

/-- Filesystem holding only a stale backup file for svc.service, the state
left behind by a successful apply followed by a revert. -/
def fsStaleBackup : FS :=
  fun p => if p = backup_file "svc.service" then some "stale" else none

/-- Filesystem holding only a pre-existing override for svc.service. -/
def fsWithOverride : FS :=
  fun p => if p = override_file "svc.service" then some "old" else none

/-- Baseline analysis produced by plainAnalyzeEnv for svc.service. -/
def initPlain : ServiceAnalysis :=
  { name := "svc.service", exposure_score := none, exposure_level := none,
    is_active := true, is_enabled := true }

/-! ### Directive table for the rendering claims -/

/-- The thirteen directive names in declaration order. -/
def dirNames : List String :=
  ["NoNewPrivileges", "IPAddressDeny", "IPAddressAllow", "PrivateTmp",
   "ProtectKernelModules", "ProtectKernelTunables", "ProtectControlGroups",
   "RestrictRealtime", "LockPersonality", "ProtectHome", "ProtectSystem",
   "MemoryDenyWriteExecute", "RestrictSUIDSGID"]

def dirName (d : Fin 13) : String := dirNames.get (Fin.cast rfl d)

/-- Override set with exactly one directive present. -/
def mkSingle (d : Fin 13) (v : String) : HardeningOverrides :=
  match d with
  | ⟨0, _⟩ => { NoNewPrivileges := some v }
  | ⟨1, _⟩ => { IPAddressDeny := some v }
  | ⟨2, _⟩ => { IPAddressAllow := some v }
  | ⟨3, _⟩ => { PrivateTmp := some v }
  | ⟨4, _⟩ => { ProtectKernelModules := some v }
  | ⟨5, _⟩ => { ProtectKernelTunables := some v }
  | ⟨6, _⟩ => { ProtectControlGroups := some v }
  | ⟨7, _⟩ => { RestrictRealtime := some v }
  | ⟨8, _⟩ => { LockPersonality := some v }
  | ⟨9, _⟩ => { ProtectHome := some v }
  | ⟨10, _⟩ => { ProtectSystem := some v }
  | ⟨11, _⟩ => { MemoryDenyWriteExecute := some v }
  | ⟨12, _⟩ => { RestrictSUIDSGID := some v }
  | ⟨n + 13, h⟩ => absurd h (by omega)

/-! ### Helper lemmas -/

theorem fsSet_same (fs : FS) (path c : String) : fsSet fs path c path = some c := by
  simp [fsSet]

theorem fsSet_other (fs : FS) (path c q : String) (h : q ≠ path) :
    fsSet fs path c q = fs q := by
  simp [fsSet, h]

theorem fsDel_same (fs : FS) (path : String) : fsDel fs path path = none := by
  simp [fsDel]

theorem fsDel_other (fs : FS) (path q : String) (h : q ≠ path) : fsDel fs path q = fs q := by
  simp [fsDel, h]

theorem override_ne_backup (s : String) : override_file s ≠ backup_file s := by
  intro h
  have h2 : (override_dir s).data ++ "/override.conf".data
      = (override_dir s).data ++ "/override.conf.backup".data := by
    have h1 := congrArg String.data h
    simp only [override_file, backup_file, String.data_append] at h1
    exact h1
  have h3 := List.append_cancel_left h2
  exact absurd h3 (by decide)

theorem backup_ne_override (s : String) : backup_file s ≠ override_file s :=
  fun h => override_ne_backup s h.symm

theorem splitLinesChars_of_no_newline (a : List Char) (h : '\n' ∉ a) :
    splitLinesChars a = [a] := by
  induction a with
  | nil => rfl
  | cons c rest ih =>
    have hc : c ≠ '\n' := fun e => h (e ▸ List.mem_cons_self c rest)
    have hrest : '\n' ∉ rest := fun hm => h (List.mem_cons_of_mem c hm)
    simp only [splitLinesChars, if_neg hc, ih hrest]

theorem splitLinesChars_append (a : List Char) (h : '\n' ∉ a) (rest : List Char) :
    splitLinesChars (a ++ '\n' :: rest) = a :: splitLinesChars rest := by
  induction a with
  | nil => simp [splitLinesChars]
  | cons c as ih =>
    have hc : c ≠ '\n' := fun e => h (e ▸ List.mem_cons_self c as)
    have has : '\n' ∉ as := fun hm => h (List.mem_cons_of_mem c hm)
    simp only [List.cons_append, splitLinesChars, if_neg hc]
    rw [List.append_eq, ih has]

theorem data_join2 (a b : String) : (a ++ "\n" ++ b).data = a.data ++ '\n' :: b.data := by
  have hn : ("\n" : String).data = ['\n'] := rfl
  rw [String.data_append, String.data_append, hn]
  simp

theorem mem_insertDesc (a b : ServiceAnalysis) (l : List ServiceAnalysis) :
    b ∈ insertDesc a l ↔ b = a ∨ b ∈ l := by
  induction l with
  | nil => simp [insertDesc]
  | cons x xs ih =>
    rw [insertDesc]
    by_cases hlt : sortKey x < sortKey a
    · simp [hlt]
    · simp only [if_neg hlt, List.mem_cons, ih]
      tauto

theorem pairwise_insertDesc (a : ServiceAnalysis) (l : List ServiceAnalysis)
    (h : List.Pairwise (fun x y => sortKey y ≤ sortKey x) l) :
    List.Pairwise (fun x y => sortKey y ≤ sortKey x) (insertDesc a l) := by
  induction l with
  | nil => simp [insertDesc]
  | cons x xs ih =>
    rw [List.pairwise_cons] at h
    rw [insertDesc]
    by_cases hlt : sortKey x < sortKey a
    · rw [if_pos hlt]
      refine List.Pairwise.cons ?_ (List.Pairwise.cons h.1 h.2)
      intro y hy
      rcases List.mem_cons.mp hy with rfl | hy
      · exact le_of_lt hlt
      · exact le_trans (h.1 y hy) (le_of_lt hlt)
    · rw [if_neg hlt]
      refine List.Pairwise.cons ?_ (ih h.2)
      intro y hy
      rcases (mem_insertDesc a y xs).mp hy with rfl | hy
      · exact le_of_not_lt hlt
      · exact h.1 y hy

theorem mem_sortedFold (l : List ServiceAnalysis) (acc : List ServiceAnalysis)
    (b : ServiceAnalysis) :
    b ∈ l.foldl (fun acc a => insertDesc a acc) acc ↔ b ∈ acc ∨ b ∈ l := by
  induction l generalizing acc with
  | nil => simp
  | cons x xs ih =>
    rw [List.foldl_cons, ih, mem_insertDesc]
    simp only [List.mem_cons]
    tauto

theorem pairwise_sortedFold (l : List ServiceAnalysis) (acc : List ServiceAnalysis)
    (h : List.Pairwise (fun x y => sortKey y ≤ sortKey x) acc) :
    List.Pairwise (fun x y => sortKey y ≤ sortKey x)
      (l.foldl (fun acc a => insertDesc a acc) acc) := by
  induction l generalizing acc with
  | nil => exact h
  | cons x xs ih => exact ih _ (pairwise_insertDesc x acc h)

theorem mem_sortedDescByScore (l : List ServiceAnalysis) (b : ServiceAnalysis) :
    b ∈ sortedDescByScore l ↔ b ∈ l := by
  rw [sortedDescByScore, mem_sortedFold]
  simp

theorem pairwise_sortedDescByScore (l : List ServiceAnalysis) :
    List.Pairwise (fun x y => sortKey y ≤ sortKey x) (sortedDescByScore l) :=
  pairwise_sortedFold l [] (by simp)

theorem matchCompletion_nil (r : String × String) : ¬ MatchCompletion [] r := by
  rintro ⟨gap, tail, h, -, -⟩
  simp at h

theorem matchCompletion_newline (rest : List Char) (r : String × String) :
    ¬ MatchCompletion ('\n' :: rest) r := by
  rintro ⟨gap, tail, heq, hnl, -⟩
  cases gap with
  | nil => simp at heq
  | cons g gs =>
    rw [List.cons_append, List.cons.injEq] at heq
    exact hnl (heq.1 ▸ List.mem_cons_self g gs)

theorem matchCompletion_cons (c : Char) (rest : List Char) (r : String × String)
    (hc : c ≠ '\n') :
    MatchCompletion (c :: rest) r ↔
      (c = ':' ∧ matchTail rest = some r) ∨ MatchCompletion rest r := by
  constructor
  · rintro ⟨gap, tail, heq, hnl, hmt⟩
    cases gap with
    | nil =>
      rw [List.nil_append, List.cons.injEq] at heq
      exact Or.inl ⟨heq.1, heq.2 ▸ hmt⟩
    | cons g gs =>
      rw [List.cons_append, List.cons.injEq] at heq
      refine Or.inr ⟨gs, tail, heq.2, fun hm => hnl (List.mem_cons_of_mem g hm), hmt⟩
  · rintro (⟨h1, h2⟩ | ⟨gap, tail, heq, hnl, hmt⟩)
    · exact ⟨[], rest, by rw [h1, List.nil_append], by simp, h2⟩
    · refine ⟨c :: gap, tail, by rw [heq, List.cons_append], ?_, hmt⟩
      intro hm
      rcases List.mem_cons.mp hm with h | h
      · exact hc h.symm
      · exact hnl h

theorem lazySearch_sound (l : List Char) :
    ∀ r, lazySearch l = some r → MatchCompletion l r := by
  induction l with
  | nil => intro r h; simp [lazySearch] at h
  | cons c rest ih =>
    intro r h
    rw [lazySearch] at h
    by_cases hc : c = ':'
    · subst hc
      rw [if_pos rfl] at h
      cases hmt : matchTail rest with
      | some r0 =>
        rw [hmt] at h
        simp only [Option.some.injEq] at h
        exact ⟨[], rest, by simp, by simp, h ▸ hmt⟩
      | none =>
        rw [hmt] at h
        exact (matchCompletion_cons ':' rest r (by decide)).mpr (Or.inr (ih r h))
    · rw [if_neg hc] at h
      by_cases hn : c = '\n'
      · rw [if_pos hn] at h; exact absurd h (by simp)
      · rw [if_neg hn] at h
        exact (matchCompletion_cons c rest r hn).mpr (Or.inr (ih r h))

theorem lazySearch_complete (l : List Char) (h : lazySearch l = none) :
    ∀ r, ¬ MatchCompletion l r := by
  induction l with
  | nil => exact matchCompletion_nil
  | cons c rest ih =>
    intro r hm
    rw [lazySearch] at h
    by_cases hc : c = ':'
    · subst hc
      rw [if_pos rfl] at h
      cases hmt : matchTail rest with
      | some r0 => rw [hmt] at h; exact absurd h (by simp)
      | none =>
        rw [hmt] at h
        rcases (matchCompletion_cons ':' rest r (by decide)).mp hm with ⟨-, h2⟩ | h2
        · rw [hmt] at h2; exact absurd h2 (by simp)
        · exact ih h r h2
    · rw [if_neg hc] at h
      by_cases hn : c = '\n'
      · subst hn; exact matchCompletion_newline rest r hm
      · rw [if_neg hn] at h
        rcases (matchCompletion_cons c rest r hn).mp hm with ⟨h1, -⟩ | h2
        · exact hc h1
        · exact ih h r h2

theorem matchAt_succ (c : Char) (rest : List Char) (j : Nat) :
    MatchAt (c :: rest) (j + 1) ↔ MatchAt rest j := by
  unfold MatchAt
  rw [List.drop_succ_cons]
  have h : j + 1 + litChars.length = (j + litChars.length) + 1 := by omega
  rw [h, List.drop_succ_cons]

theorem searchFrom_complete (s : List Char) (h : searchFrom s = none) :
    ∀ i, ¬ MatchAt s i := by
  induction s with
  | nil =>
    intro i hm
    have h1 := hm.1
    rw [List.drop_nil] at h1
    have h2 : litChars = [] := List.prefix_nil.mp h1
    exact absurd h2 (by decide)
  | cons c rest ih =>
    intro i hm
    rw [searchFrom] at h
    cases i with
    | zero =>
      rcases hm with ⟨hp, r, hcm⟩
      rw [List.drop_zero] at hp
      have hb : litChars.isPrefixOf (c :: rest) = true := List.isPrefixOf_iff_prefix.mpr hp
      rw [if_pos hb] at h
      cases hls : lazySearch ((c :: rest).drop litChars.length) with
      | some r0 => rw [hls] at h; exact absurd h (by simp)
      | none =>
        rw [Nat.zero_add] at hcm
        exact lazySearch_complete _ hls r hcm
    | succ j =>
      have hrest : searchFrom rest = none := by
        by_cases hb : litChars.isPrefixOf (c :: rest) = true
        · rw [if_pos hb] at h
          cases hls : lazySearch ((c :: rest).drop litChars.length) with
          | some r0 => rw [hls] at h; exact absurd h (by simp)
          | none => rw [hls] at h; exact h
        · rw [if_neg hb] at h; exact h
      exact ih hrest j ((matchAt_succ c rest j).mp hm)

theorem searchFrom_sound (s : List Char) :
    ∀ r, searchFrom s = some r →
      ∃ i, (litChars <+: s.drop i ∧ MatchCompletion (s.drop (i + litChars.length)) r) ∧
        ∀ j, j < i → ¬ MatchAt s j := by
  induction s with
  | nil => intro r h; simp [searchFrom] at h
  | cons c rest ih =>
    intro r h
    rw [searchFrom] at h
    by_cases hb : litChars.isPrefixOf (c :: rest) = true
    · rw [if_pos hb] at h
      cases hls : lazySearch ((c :: rest).drop litChars.length) with
      | some r0 =>
        rw [hls] at h
        simp only [Option.some.injEq] at h
        refine ⟨0, ⟨?_, ?_⟩, fun j hj => absurd hj (Nat.not_lt_zero j)⟩
        · rw [List.drop_zero]; exact List.isPrefixOf_iff_prefix.mp hb
        · rw [Nat.zero_add]; exact h ▸ lazySearch_sound _ r0 hls
      | none =>
        rw [hls] at h
        obtain ⟨i, ⟨h1, h2⟩, h3⟩ := ih r h
        refine ⟨i + 1, ⟨by rw [List.drop_succ_cons]; exact h1, ?_⟩, ?_⟩
        · have he : i + 1 + litChars.length = (i + litChars.length) + 1 := by omega
          rw [he, List.drop_succ_cons]; exact h2
        · intro j hj
          cases j with
          | zero =>
            rintro ⟨-, r1, hcm⟩
            rw [Nat.zero_add] at hcm
            exact lazySearch_complete _ hls r1 hcm
          | succ j0 =>
            rw [matchAt_succ]
            exact h3 j0 (by omega)
    · rw [if_neg hb] at h
      obtain ⟨i, ⟨h1, h2⟩, h3⟩ := ih r h
      refine ⟨i + 1, ⟨by rw [List.drop_succ_cons]; exact h1, ?_⟩, ?_⟩
      · have he : i + 1 + litChars.length = (i + litChars.length) + 1 := by omega
        rw [he, List.drop_succ_cons]; exact h2
      · intro j hj
        cases j with
        | zero =>
          intro hm
          have hp := hm.1
          rw [List.drop_zero] at hp
          exact hb (List.isPrefixOf_iff_prefix.mpr hp)
        | succ j0 =>
          rw [matchAt_succ]
          exact h3 j0 (by omega)

theorem keepHighExposure_iff (a : ServiceAnalysis) (t : ℚ) :
    keepHighExposure a t = true ↔ ∃ q, a.exposure_score = some q ∧ q ≠ 0 ∧ t ≤ q := by
  rw [keepHighExposure]
  cases h : a.exposure_score with
  | none => simp
  | some q => simp

theorem apply_success_shape (eng : HardeningEngine) (env : ApplyEnv) (fs : FS)
    (s : String) (p : Option String) (prof : HardeningProfile) (init : ServiceAnalysis)
    (h1 : eng.is_excluded s = false)
    (h2 : analyze_service env.initialAnalyze s = some init)
    (h4 : eng.profiles.profiles.lookup (resolve_profile eng s p) = some prof)
    (h5 : env.reloadOk = true)
    (h6 : env.restartOk = true)
    (h7 : pyStrip env.postActiveOut = "active") :
    (apply_hardening eng env fs s p false).1.success = true ∧
    (apply_hardening eng env fs s p false).2.1 =
      fsSet (match fs (override_file s) with
             | some c => fsSet fs (backup_file s) c
             | none => fs)
        (override_file s)
        ("# Generated by SystemdShield - Profile: " ++ resolve_profile eng s p ++ "\n"
          ++ prof.overrides.to_systemd_config) := by
  unfold apply_hardening
  simp only [h1, h2, h4, h5, h6, h7, Bool.false_eq_true, if_false, if_true]
  cases hia : init.is_active with
  | false => simp
  | true => simp

theorem rollback_none_fs (env : RollbackEnv) (fs : FS) (s : String) :
    (rollback env fs s none).1 =
      if (fs (override_file s)).isSome then fsDel fs (override_file s) else fs := by
  unfold rollback
  cases env.reloadOk <;> simp

theorem rollback_some_fs (env : RollbackEnv) (fs : FS) (s b : String) :
    (rollback env fs s (some b)).1 =
      match fs b with
      | some c => fsSet fs (override_file s) c
      | none => if (fs (override_file s)).isSome then fsDel fs (override_file s) else fs := by
  unfold rollback
  cases env.reloadOk <;> simp

/-! ### Claim theorems -/

/-- C10: the revert command invokes rollback with no backup file argument; in
that case rollback deletes the service's override.conf when it exists and
never reads override.conf.backup even when such a file exists on disk, so
revert always leaves the service in the no-override state with the backup
file untouched. -/
theorem C10_revert_deletes_override (env : RollbackEnv) (fs : FS) (s : String) :
    (revert env fs s).1 (override_file s) = none ∧
    (revert env fs s).1 (backup_file s) = fs (backup_file s) ∧
    revert env fs s = rollback env fs s none := by
  refine ⟨?_, ?_, rfl⟩
  · rw [revert, rollback_none_fs]
    by_cases h : (fs (override_file s)).isSome = true
    · rw [if_pos h, fsDel_same]
    · rw [if_neg h]
      exact Option.not_isSome_iff_eq_none.mp h
  · rw [revert, rollback_none_fs]
    by_cases h : (fs (override_file s)).isSome = true
    · rw [if_pos h, fsDel_other _ _ _ (backup_ne_override s)]
    · rw [if_neg h]

/-- C7: every apply_hardening call that stops before the mutation step
(excluded service, failed baseline analysis, unknown resolved profile, or
dry run) leaves the filesystem unchanged and issues no external action; the
three failure cases return success = false with their descriptive error,
while a dry run that passes validation returns success = true. -/
theorem C7_no_mutation (eng : HardeningEngine) (env : ApplyEnv) (fs : FS)
    (s : String) (p : Option String) (d : Bool)
    (h : eng.is_excluded s = true ∨ analyze_service env.initialAnalyze s = none ∨
      eng.profiles.profiles.lookup (resolve_profile eng s p) = none ∨ d = true) :
    (apply_hardening eng env fs s p d).2.1 = fs ∧
    (apply_hardening eng env fs s p d).2.2 = [] ∧
    (apply_hardening eng env fs s p d).1.success =
      (!eng.is_excluded s && (analyze_service env.initialAnalyze s).isSome &&
       (eng.profiles.profiles.lookup (resolve_profile eng s p)).isSome && d) ∧
    (apply_hardening eng env fs s p d).1.error =
      (if eng.is_excluded s then some "Service is in exclusion list"
       else if (analyze_service env.initialAnalyze s).isNone then
         some "Failed to analyze service"
       else if (eng.profiles.profiles.lookup (resolve_profile eng s p)).isNone then
         some ("Unknown profile: " ++ resolve_profile eng s p)
       else none) := by
  unfold apply_hardening
  cases hex : eng.is_excluded s with
  | true => simp [hex]
  | false =>
    cases han : analyze_service env.initialAnalyze s with
    | none => simp [hex, han]
    | some init =>
      cases hlk : eng.profiles.profiles.lookup (resolve_profile eng s p) with
      | none => simp [hex, han, hlk]
      | some prof =>
        have hd : d = true := by
          rcases h with h | h | h | h
          · rw [hex] at h; exact absurd h (by simp)
          · rw [han] at h; exact absurd h (by simp)
          · rw [hlk] at h; exact absurd h (by simp)
          · exact h
        subst hd
        simp [hex, han, hlk]

/-- C7 witness: a dry run with a valid profile on a non-excluded, analyzable
service reports success. -/
theorem C7_witness :
    (apply_hardening engPlain envHealthy fsEmpty "svc.service" none true).1.success = true := by
  have h := C7_no_mutation engPlain envHealthy fsEmpty "svc.service" none true
    (Or.inr (Or.inr (Or.inr rfl)))
  rw [h.2.2.1]
  decide

/-- C9: applying the same profile twice in succession to a healthy service
succeeds both times and writes identical override file content both times;
the second run backs the existing override up and overwrites it with the
same rendered content. -/
theorem C9_idempotent (eng : HardeningEngine) (env1 env2 : ApplyEnv) (fs : FS)
    (s : String) (p : Option String) (prof : HardeningProfile)
    (init1 init2 : ServiceAnalysis)
    (h1 : eng.is_excluded s = false)
    (h2a : analyze_service env1.initialAnalyze s = some init1)
    (h2b : analyze_service env2.initialAnalyze s = some init2)
    (h4 : eng.profiles.profiles.lookup (resolve_profile eng s p) = some prof)
    (h5a : env1.reloadOk = true) (h5b : env2.reloadOk = true)
    (h6a : env1.restartOk = true) (h6b : env2.restartOk = true)
    (h7a : pyStrip env1.postActiveOut = "active")
    (h7b : pyStrip env2.postActiveOut = "active") :
    (apply_hardening eng env1 fs s p false).1.success = true ∧
    (apply_hardening eng env2 (apply_hardening eng env1 fs s p false).2.1
      s p false).1.success = true ∧
    (apply_hardening eng env1 fs s p false).2.1 (override_file s) =
      some ("# Generated by SystemdShield - Profile: " ++ resolve_profile eng s p ++ "\n"
        ++ prof.overrides.to_systemd_config) ∧
    (apply_hardening eng env2 (apply_hardening eng env1 fs s p false).2.1
      s p false).2.1 (override_file s) =
      (apply_hardening eng env1 fs s p false).2.1 (override_file s) ∧
    (apply_hardening eng env2 (apply_hardening eng env1 fs s p false).2.1
      s p false).2.1 (backup_file s) =
      (apply_hardening eng env1 fs s p false).2.1 (override_file s) := by
  obtain ⟨hs1, hf1⟩ := apply_success_shape eng env1 fs s p prof init1 h1 h2a h4 h5a h6a h7a
  obtain ⟨hs2, hf2⟩ :=
    apply_success_shape eng env2 (apply_hardening eng env1 fs s p false).2.1
      s p prof init2 h1 h2b h4 h5b h6b h7b
  have hov1 : (apply_hardening eng env1 fs s p false).2.1 (override_file s) =
      some ("# Generated by SystemdShield - Profile: " ++ resolve_profile eng s p ++ "\n"
        ++ prof.overrides.to_systemd_config) := by
    rw [hf1, fsSet_same]
  simp only [hov1] at hf2
  refine ⟨hs1, hs2, hov1, ?_, ?_⟩
  · rw [hf2, fsSet_same, hov1]
  · rw [hf2, fsSet_other _ _ _ _ (backup_ne_override s), fsSet_same, hov1]

/-- C9 witness: a concrete double application on an empty filesystem. -/
theorem C9_witness :
    (apply_hardening engPlain envHealthy fsEmpty "svc.service" none false).1.success = true ∧
    (apply_hardening engPlain envHealthy
      (apply_hardening engPlain envHealthy fsEmpty "svc.service" none false).2.1
      "svc.service" none false).2.1 (override_file "svc.service") =
      (apply_hardening engPlain envHealthy fsEmpty "svc.service" none false).2.1
        (override_file "svc.service") := by
  have h := C9_idempotent engPlain envHealthy envHealthy fsEmpty "svc.service" none
    sysProfile initPlain initPlain (by decide) (by decide) (by decide) (by decide)
    rfl rfl rfl rfl (by decide) (by decide)
  exact ⟨h.1, h.2.2.2.1⟩

/-- C1 counterexample: with a stale backup file on disk (the state left by a
successful apply followed by a revert) and no override file, a health-check
failure rolls the override back to the stale backup content instead of
leaving the override absent, contradicting the claim as stated. -/
theorem C1_counterexample :
    (apply_hardening engPlain envHealthFail fsStaleBackup "svc.service" none
      false).2.1 (override_file "svc.service") = some "stale" ∧
    fsStaleBackup (override_file "svc.service") = none ∧
    (apply_hardening engPlain envHealthFail fsStaleBackup "svc.service" none
      false).1.rollback_performed = true := by
  decide

/-- C1 (amended): when apply_hardening reaches the mutation stage with an
active baseline and the post-restart health check fails, the call returns
success = false, rollback_performed = true and the health-check error, and
the override file content is restored to its pre-operation state, provided
that no stale backup file predates the operation when no override file
exists (a pre-existing override is always restored exactly, since its fresh
backup overwrites any stale one). -/
theorem C1_health_fail_restores (eng : HardeningEngine) (env : ApplyEnv) (fs : FS)
    (s : String) (p : Option String) (prof : HardeningProfile) (init : ServiceAnalysis)
    (h1 : eng.is_excluded s = false)
    (h2 : analyze_service env.initialAnalyze s = some init)
    (h3 : init.is_active = true)
    (h4 : eng.profiles.profiles.lookup (resolve_profile eng s p) = some prof)
    (h5 : env.reloadOk = true)
    (h6 : env.restartOk = true)
    (h7 : pyStrip env.postActiveOut ≠ "active")
    (h8 : fs (override_file s) = none → fs (backup_file s) = none) :
    (apply_hardening eng env fs s p false).1.success = false ∧
    (apply_hardening eng env fs s p false).1.rollback_performed = true ∧
    (apply_hardening eng env fs s p false).1.error =
      some "Service failed health check after hardening" ∧
    (apply_hardening eng env fs s p false).2.1 (override_file s) =
      fs (override_file s) := by
  unfold apply_hardening
  simp only [h1, h2, h3, h4, h5, h6, Bool.false_eq_true, if_false, if_true,
    if_pos h7]
  cases hov : fs (override_file s) with
  | some c =>
    simp only [hov, rollback_some_fs]
    have hbk : fsSet (fsSet fs (backup_file s) c)
        (override_file s)
        ("# Generated by SystemdShield - Profile: " ++ resolve_profile eng s p ++ "\n"
          ++ prof.overrides.to_systemd_config) (backup_file s) = some c := by
      rw [fsSet_other _ _ _ _ (backup_ne_override s), fsSet_same]
    simp only [hbk]
    exact ⟨trivial, trivial, trivial, by rw [fsSet_same]⟩
  | none =>
    have hbk0 : fs (backup_file s) = none := h8 hov
    simp only [hov, rollback_some_fs]
    have hbk : fsSet fs (override_file s)
        ("# Generated by SystemdShield - Profile: " ++ resolve_profile eng s p ++ "\n"
          ++ prof.overrides.to_systemd_config) (backup_file s) = none := by
      rw [fsSet_other _ _ _ _ (backup_ne_override s), hbk0]
    simp only [hbk]
    have hovSome : (fsSet fs (override_file s)
        ("# Generated by SystemdShield - Profile: " ++ resolve_profile eng s p ++ "\n"
          ++ prof.overrides.to_systemd_config) (override_file s)).isSome = true := by
      rw [fsSet_same]; rfl
    rw [if_pos hovSome]
    exact ⟨trivial, trivial, trivial, by rw [fsDel_same]⟩

/-- C1 witness: a pre-existing override is restored exactly after a failed
health check. -/
theorem C1_witness :
    (apply_hardening engPlain envHealthFail fsWithOverride "svc.service" none
      false).2.1 (override_file "svc.service") =
      fsWithOverride (override_file "svc.service") :=
  (C1_health_fail_restores engPlain envHealthFail fsWithOverride "svc.service" none
    sysProfile initPlain (by decide) (by decide) rfl (by decide) rfl rfl (by decide)
    (fun h => absurd h (by decide))).2.2.2

/-- C6 counterexample: the exclusion pattern a*b, whose star is not trailing,
matches the service named a*b by exact equality in the code, while the claim
(equality only for star-free patterns) says it matches nothing. -/
theorem C6_counterexample :
    matchesExclusion "a*b" "a*b" = true ∧ specExclusionMatch "a*b" "a*b" = false := by
  decide

/-- C6 (amended): a single exclusion pattern matches a service name exactly
when the pattern ends in a star and the name starts with the pattern minus
the star, or the name equals the pattern exactly — with no restriction on
where stars occur in the pattern for the equality branch; is_excluded holds
exactly when some configured pattern matches. -/
theorem C6_exclusion_match (pat service_name : String) (eng : HardeningEngine) :
    (matchesExclusion pat service_name = true ↔
      (pyEndsWith pat "*" = true ∧
        pyStartsWith service_name (pyDropRight pat 1) = true) ∨
        service_name = pat) ∧
    (eng.is_excluded service_name = true ↔
      ∃ q ∈ eng.exclusions.excluded_services, matchesExclusion q service_name = true) := by
  constructor
  · rw [matchesExclusion]
    simp [Bool.or_eq_true, Bool.and_eq_true]
  · rw [HardeningEngine.is_excluded]
    simp [List.any_eq_true]

/-- C4 counterexample: an explicitly given empty profile name is not used;
resolution falls through to auto-detection because the code tests the
argument with Python truthiness. -/
theorem C4_counterexample :
    resolve_profile engPlain "svc.service" (some "") = "system_service" ∧
    "system_service" ≠ "" := by
  constructor
  · decide
  · decide

/-- C4 (amended): an explicitly given non-empty profile name is always used
(an explicit empty string is treated as absent); otherwise resolution uses
the explicit service-mapping entry when present, else the first matching
rule of the ordered substring heuristics, else the default profile. -/
theorem C4_profile_resolution (eng : HardeningEngine) (s p : String) :
    (p ≠ "" → resolve_profile eng s (some p) = p) ∧
    resolve_profile eng s none = eng.get_profile_for_service s ∧
    resolve_profile eng s (some "") = eng.get_profile_for_service s ∧
    (∀ m, eng.profiles.service_mappings.lookup s = some m →
      eng.get_profile_for_service s = m) ∧
    (eng.profiles.service_mappings.lookup s = none →
      eng.get_profile_for_service s =
        (if networkLike s then "network_service"
         else if virtualizationLike s then "virtualization_service"
         else if criticalLike s then "critical_service"
         else "system_service")) := by
  refine ⟨?_, rfl, ?_, ?_, ?_⟩
  · intro hp
    rw [resolve_profile, if_pos hp]
  · rw [resolve_profile, if_neg (by simp)]
  · intro m hm
    rw [HardeningEngine.get_profile_for_service, hm]
  · intro hm
    rw [HardeningEngine.get_profile_for_service, hm]

/-- C4 witness: a concrete non-empty explicit profile name wins. -/
theorem C4_witness :
    resolve_profile engPlain "wpa_supplicant.service" (some "custom_profile") =
      "custom_profile" :=
  (C4_profile_resolution engPlain "wpa_supplicant.service" "custom_profile").1
    (by decide)

/-- C3 counterexample: when the external tool is unavailable,
get_all_services raises FileNotFoundError across the caller boundary instead
of returning an empty sequence, because its try block only catches
CalledProcessError. -/
theorem C3_counterexample :
    get_all_services RunOutcome.missing = Except.error PyExc.fileNotFoundError ∧
    ∀ l : List String, get_all_services RunOutcome.missing ≠ Except.ok l := by
  refine ⟨rfl, ?_⟩
  intro l h
  simp [get_all_services] at h

theorem analyze_parse_shape_run (env : AnalyzeEnv) (sname secOut actOut enOut : String)
    (hsec : runNoCheck env.security = Except.ok secOut)
    (hact : runNoCheck env.isActive = Except.ok actOut)
    (hen : runNoCheck env.isEnabled = Except.ok enOut) :
    analyze_service env sname =
      (match searchFrom secOut.data with
       | some (scStr, lvStr) =>
         match pyFloatOfScore scStr with
         | some sc =>
           some { name := sname, exposure_score := some sc, exposure_level := some lvStr,
                  is_active := pyStrip actOut == "active",
                  is_enabled := pyStrip enOut == "enabled" || pyStrip enOut == "static" }
         | none => none
       | none =>
         some { name := sname, exposure_score := none, exposure_level := none,
                is_active := pyStrip actOut == "active",
                is_enabled := pyStrip enOut == "enabled" || pyStrip enOut == "static" }) := by
  rw [analyze_service, hsec, hact, hen]

/-- C3 (amended): get_all_services degrades to an empty sequence on a
non-zero exit and never lets CalledProcessError escape, but a missing tool
raises FileNotFoundError out of it.  analyze_service returns an absent
result when one of its queries raises (missing tool); a non-zero exit of its
queries never makes the result absent, since every one of its runs uses
check False: the captured output is used as is, and when no exposure pattern
occurs in it the function returns a present analysis with unset score and
level. -/
theorem C3_query_failures (out : String) (o : RunOutcome) (env : AnalyzeEnv)
    (s : String) :
    get_all_services (RunOutcome.exitFail out) = Except.ok [] ∧
    get_all_services o ≠ Except.error PyExc.calledProcessError ∧
    runNoCheck (RunOutcome.exitFail out) = Except.ok out ∧
    ((env.security = RunOutcome.missing ∨ env.isActive = RunOutcome.missing ∨
      env.isEnabled = RunOutcome.missing) → analyze_service env s = none) ∧
    (∀ secOut actOut enOut : String,
      runNoCheck env.security = Except.ok secOut →
      runNoCheck env.isActive = Except.ok actOut →
      runNoCheck env.isEnabled = Except.ok enOut →
      searchFrom secOut.data = none →
      analyze_service env s =
        some { name := s, exposure_score := none, exposure_level := none,
               is_active := pyStrip actOut == "active",
               is_enabled := pyStrip enOut == "enabled" || pyStrip enOut == "static" }) := by
  refine ⟨rfl, ?_, rfl, ?_, ?_⟩
  · cases o <;> simp [get_all_services]
  · intro h
    rw [analyze_service]
    rcases h with h | h | h
    · rw [h]
      cases runNoCheck env.isActive <;> cases runNoCheck env.isEnabled <;> rfl
    · rw [h]
      cases runNoCheck env.security <;> cases runNoCheck env.isEnabled <;> rfl
    · rw [h]
      cases runNoCheck env.security <;> cases runNoCheck env.isActive <;> rfl
  · intro secOut actOut enOut hsec hact hen hnone
    rw [analyze_parse_shape_run env s secOut actOut enOut hsec hact hen]
    simp only [hnone]

/-- C3 witness: a missing security tool makes analyze_service return an
absent result rather than raising, while non-zero exits of all three queries
yield a present analysis with unset score and level. -/
theorem C3_witness :
    analyze_service
      { security := RunOutcome.missing, isActive := RunOutcome.ok "active",
        isEnabled := RunOutcome.ok "enabled" } "x.service" = none ∧
    analyze_service
      { security := RunOutcome.exitFail "Failed to analyze unit",
        isActive := RunOutcome.exitFail "inactive",
        isEnabled := RunOutcome.exitFail "disabled" } "x.service" =
      some { name := "x.service", exposure_score := none, exposure_level := none,
             is_active := false, is_enabled := false } := by
  constructor
  · exact (C3_query_failures "" RunOutcome.missing
      { security := RunOutcome.missing, isActive := RunOutcome.ok "active",
        isEnabled := RunOutcome.ok "enabled" } "x.service").2.2.2.1 (Or.inl rfl)
  · exact (C3_query_failures "" RunOutcome.missing
      { security := RunOutcome.exitFail "Failed to analyze unit",
        isActive := RunOutcome.exitFail "inactive",
        isEnabled := RunOutcome.exitFail "disabled" } "x.service").2.2.2.2
      "Failed to analyze unit" "inactive" "disabled" rfl rfl rfl (by decide)

theorem pyFloat_zero : pyFloatOfScore "0.0" = some 0 := by
  have h : pyFloatOfScore "0.0"
      = some (((0 : Nat) : ℚ) + ((0 : Nat) : ℚ) / (10 : ℚ) ^ (1 : Nat)) := by rfl
  rw [h]
  norm_num

theorem pyFloat_96 : pyFloatOfScore "9.6" = some (48/5) := by
  have h : pyFloatOfScore "9.6"
      = some (((9 : Nat) : ℚ) + ((6 : Nat) : ℚ) / (10 : ℚ) ^ (1 : Nat)) := by rfl
  rw [h]
  norm_num

theorem pyFloat_one : pyFloatOfScore "1.0" = some 1 := by
  have h : pyFloatOfScore "1.0"
      = some (((1 : Nat) : ℚ) + ((0 : Nat) : ℚ) / (10 : ℚ) ^ (1 : Nat)) := by rfl
  rw [h]
  norm_num

theorem analyze_parse_shape (env : AnalyzeEnv) (sname secOut actOut enOut : String)
    (hsec : env.security = RunOutcome.ok secOut)
    (hact : env.isActive = RunOutcome.ok actOut)
    (hen : env.isEnabled = RunOutcome.ok enOut) :
    analyze_service env sname =
      (match searchFrom secOut.data with
       | some (scStr, lvStr) =>
         match pyFloatOfScore scStr with
         | some sc =>
           some { name := sname, exposure_score := some sc, exposure_level := some lvStr,
                  is_active := pyStrip actOut == "active",
                  is_enabled := pyStrip enOut == "enabled" || pyStrip enOut == "static" }
         | none => none
       | none =>
         some { name := sname, exposure_score := none, exposure_level := none,
                is_active := pyStrip actOut == "active",
                is_enabled := pyStrip enOut == "enabled" || pyStrip enOut == "static" }) := by
  rw [analyze_service, hsec, hact, hen]
  rfl

theorem analyze_zeroScore :
    analyze_service envZeroScore "zero.service" =
      some { name := "zero.service", exposure_score := some 0, exposure_level := some "OK",
             is_active := true, is_enabled := true } := by
  have key : analyze_service envZeroScore "zero.service" =
      (match pyFloatOfScore "0.0" with
       | some sc =>
         some { name := "zero.service", exposure_score := some sc,
                exposure_level := some "OK", is_active := true, is_enabled := true }
       | none => (none : Option ServiceAnalysis)) := by rfl
  rw [key, pyFloat_zero]

theorem analyze_exposureExample :
    analyze_service envExposureExample "foo.service" = some analysis96 := by
  have key : analyze_service envExposureExample "foo.service" =
      (match pyFloatOfScore "9.6" with
       | some sc =>
         some { name := "foo.service", exposure_score := some sc,
                exposure_level := some "UNSAFE", is_active := true, is_enabled := true }
       | none => (none : Option ServiceAnalysis)) := by rfl
  rw [key, pyFloat_96]
  rfl

theorem analyze_twoMatch :
    analyze_service envTwoMatch "b.service" =
      some { name := "b.service", exposure_score := some 1, exposure_level := some "OK",
             is_active := true, is_enabled := true } := by
  have key : analyze_service envTwoMatch "b.service" =
      (match pyFloatOfScore "1.0" with
       | some sc =>
         some { name := "b.service", exposure_score := some sc,
                exposure_level := some "OK", is_active := true, is_enabled := true }
       | none => (none : Option ServiceAnalysis)) := by rfl
  rw [key, pyFloat_one]

/-- C2 counterexample: a service whose exposure score is exactly 0.0 is
dropped by get_high_exposure_services even at threshold 0, because the code
tests the score with Python truthiness; the claim says it is kept. -/
theorem C2_counterexample :
    get_high_exposure_services analyzerEnvZero 0 = Except.ok [] ∧
    get_all_services analyzerEnvZero.listUnits = Except.ok ["zero.service"] ∧
    analyze_service (analyzerEnvZero.perService "zero.service") "zero.service" =
      some { name := "zero.service", exposure_score := some 0, exposure_level := some "OK",
             is_active := true, is_enabled := true } ∧
    (0 : ℚ) ≤ 0 := by
  refine ⟨?_, rfl, analyze_zeroScore, le_refl 0⟩
  have hkeep : keepHighExposure
      { name := "zero.service", exposure_score := some 0, exposure_level := some "OK",
        is_active := true, is_enabled := true } (0 : ℚ) = false := by
    simp [keepHighExposure]
  have key : get_high_exposure_services analyzerEnvZero 0 =
      Except.ok (sortedDescByScore (["zero.service"].filterMap (fun s =>
        match analyze_service (analyzerEnvZero.perService s) s with
        | none => none
        | some a => if keepHighExposure a 0 then some a else none))) := by rfl
  rw [key]
  have hps : analyzerEnvZero.perService "zero.service" = envZeroScore := rfl
  simp [List.filterMap_cons, hps, analyze_zeroScore, hkeep, sortedDescByScore]

/-- C2 (amended): get_high_exposure_services returns exactly those analyzed
services whose exposure score is present, non-zero and at least the
threshold (a score of exactly 0.0 is dropped even when the threshold is at
most 0, and an absent score is always dropped), ordered descending by
score. -/
theorem C2_high_exposure (env : AnalyzerEnv) (t : ℚ) (svcs : List String)
    (out : List ServiceAnalysis)
    (h1 : get_all_services env.listUnits = Except.ok svcs)
    (h2 : get_high_exposure_services env t = Except.ok out) :
    (∀ a, a ∈ out ↔ ∃ s ∈ svcs, analyze_service (env.perService s) s = some a ∧
      ∃ q, a.exposure_score = some q ∧ q ≠ 0 ∧ t ≤ q) ∧
    List.Pairwise (fun x y => sortKey y ≤ sortKey x) out := by
  rw [get_high_exposure_services] at h2
  rw [h1] at h2
  simp only [Except.ok.injEq] at h2
  subst h2
  constructor
  · intro a
    rw [mem_sortedDescByScore, List.mem_filterMap]
    constructor
    · rintro ⟨s, hs, hf⟩
      cases han : analyze_service (env.perService s) s with
      | none => simp only [han] at hf; exact absurd hf (by simp)
      | some a0 =>
        simp only [han] at hf
        by_cases hk : keepHighExposure a0 t = true
        · rw [if_pos hk] at hf
          simp only [Option.some.injEq] at hf
          subst hf
          exact ⟨s, hs, han, (keepHighExposure_iff a0 t).mp hk⟩
        · rw [if_neg hk] at hf
          exact absurd hf (by simp)
    · rintro ⟨s, hs, han, hq⟩
      refine ⟨s, hs, ?_⟩
      simp only [han]
      rw [if_pos ((keepHighExposure_iff a t).mpr hq)]
  · exact pairwise_sortedDescByScore _

/-- C2 witness: the characterization applied to a concrete listing with one
high-exposure service. -/
theorem C2_witness :
    List.Pairwise (fun x y => sortKey y ≤ sortKey x) [analysis96] := by
  have hkeep : keepHighExposure analysis96 8 = true := by
    rw [keepHighExposure]
    show (decide ((48/5 : ℚ) ≠ 0) && decide ((8:ℚ) ≤ 48/5)) = true
    norm_num
  have hok : get_high_exposure_services analyzerEnvHigh 8 = Except.ok [analysis96] := by
    have key : get_high_exposure_services analyzerEnvHigh 8 =
        Except.ok (sortedDescByScore (["foo.service"].filterMap (fun s =>
          match analyze_service (analyzerEnvHigh.perService s) s with
          | none => none
          | some a => if keepHighExposure a 8 then some a else none))) := by rfl
    rw [key]
    have hps : analyzerEnvHigh.perService "foo.service" = envExposureExample := rfl
    simp [List.filterMap_cons, hps, analyze_exposureExample, hkeep, sortedDescByScore,
      insertDesc, List.foldl_cons, List.foldl_nil]
  exact (C2_high_exposure analyzerEnvHigh 8 ["foo.service"] [analysis96] rfl hok).2

/-- C5 counterexample: on an output with two lines matching the exposure
pattern, analyze_service extracts the score and level of the first match
(1.0 OK), not of the last matching line, whose own parse yields 9.6 UNSAFE. -/
theorem C5_counterexample :
    analyze_service envTwoMatch "b.service" =
      some { name := "b.service", exposure_score := some 1, exposure_level := some "OK",
             is_active := true, is_enabled := true } ∧
    "Overall exposure level for b.service: 9.6 UNSAFE".data ∈
      splitLinesChars twoMatchOut.data ∧
    searchFrom "Overall exposure level for b.service: 9.6 UNSAFE".data =
      some ("9.6", "UNSAFE") ∧
    (1 : ℚ) ≠ 48/5 := by
  refine ⟨analyze_twoMatch, by decide, by decide, by norm_num⟩

/-- C5 (amended): analyze_service extracts the score and severity label from
the first (leftmost) occurrence of the exposure pattern in the output — the
returned pair comes from a position where the pattern matches and no earlier
position matches — and leaves score and level unset, without an error, when
no position matches; the spec example parses to 9.6 UNSAFE. -/
theorem C5_first_match (env : AnalyzeEnv) (sname secOut actOut enOut : String)
    (hsec : env.security = RunOutcome.ok secOut)
    (hact : env.isActive = RunOutcome.ok actOut)
    (hen : env.isEnabled = RunOutcome.ok enOut) :
    (searchFrom secOut.data = none →
      analyze_service env sname =
        some { name := sname, exposure_score := none, exposure_level := none,
               is_active := pyStrip actOut == "active",
               is_enabled := pyStrip enOut == "enabled" || pyStrip enOut == "static" } ∧
      ∀ i, ¬ MatchAt secOut.data i) ∧
    (∀ sc lv, searchFrom secOut.data = some (sc, lv) →
      (∃ i, (litChars <+: secOut.data.drop i ∧
          MatchCompletion (secOut.data.drop (i + litChars.length)) (sc, lv)) ∧
          ∀ j, j < i → ¬ MatchAt secOut.data j) ∧
      ∀ q, pyFloatOfScore sc = some q →
        analyze_service env sname =
          some { name := sname, exposure_score := some q, exposure_level := some lv,
                 is_active := pyStrip actOut == "active",
                 is_enabled := pyStrip enOut == "enabled" || pyStrip enOut == "static" }) := by
  have base := analyze_parse_shape env sname secOut actOut enOut hsec hact hen
  constructor
  · intro hnone
    constructor
    · rw [base]
      simp only [hnone]
    · exact searchFrom_complete secOut.data hnone
  · intro sc lv hsome
    constructor
    · exact searchFrom_sound secOut.data (sc, lv) hsome
    · intro q hq
      rw [base]
      simp only [hsome, hq]

/-- C5 witness: the worked example of the spec, through the first-match
theorem. -/
theorem C5_witness :
    analyze_service envExposureExample "foo.service" =
      some { name := "foo.service", exposure_score := some (48/5),
             exposure_level := some "UNSAFE", is_active := true, is_enabled := true } := by
  have h := (C5_first_match envExposureExample "foo.service" exposureExampleOut
    "active" "enabled" rfl rfl rfl).2 "9.6" "UNSAFE" (by decide)
  exact h.2 (48/5) pyFloat_96

/-- C8 counterexample: a directive value containing a newline breaks the
rendered line structure, so no line of the output equals the directive=value
pair and the claim as stated fails. -/
theorem C8_counterexample :
    ({ NoNewPrivileges := some "a\nb" } : HardeningOverrides).NoNewPrivileges =
      some "a\nb" ∧
    (splitLinesChars
      ({ NoNewPrivileges := some "a\nb" } : HardeningOverrides).to_systemd_config.data).count
      "NoNewPrivileges=a\nb".data = 0 := by
  exact ⟨rfl, by decide⟩

theorem dirName_no_newline : ∀ d : Fin 13, '\n' ∉ (dirName d).data := by decide

theorem dirNames_prefix_free :
    ∀ e d : Fin 13, e ≠ d →
      ¬((dirName e ++ "=").data <+: (dirName d ++ "=").data) := by decide

theorem dirName_ne_service_header :
    ∀ e : Fin 13, ¬((dirName e ++ "=").data <+: "[Service]".data) := by decide

theorem configLines_mkSingle (d : Fin 13) (v : String) :
    (mkSingle d v).configLines = ["[Service]", dirName d ++ "=" ++ v] := by
  fin_cases d <;> rfl

theorem to_config_mkSingle (d : Fin 13) (v : String) :
    (mkSingle d v).to_systemd_config = "[Service]" ++ "\n" ++ (dirName d ++ "=" ++ v) := by
  rw [HardeningOverrides.to_systemd_config, configLines_mkSingle]
  rfl

/-- C8 (amended): for an override set with exactly one directive present,
whose value contains no newline, the rendered config splits into exactly the
header line and the single directive=value line; that line occurs exactly
once and no line of the output belongs to any unset directive — absent
directives are omitted entirely. -/
theorem C8_render (d : Fin 13) (v : String) (hv : '\n' ∉ v.data) :
    splitLinesChars (mkSingle d v).to_systemd_config.data =
      ["[Service]".data, (dirName d ++ "=" ++ v).data] ∧
    (splitLinesChars (mkSingle d v).to_systemd_config.data).count
      ((dirName d ++ "=" ++ v).data) = 1 ∧
    ∀ e : Fin 13, e ≠ d → ∀ line ∈ splitLinesChars (mkSingle d v).to_systemd_config.data,
      ¬ ((dirName e ++ "=").data <+: line) := by
  have hXd : (dirName d ++ "=" ++ v).data = (dirName d ++ "=").data ++ v.data :=
    String.data_append (dirName d ++ "=") v
  have hXnl : '\n' ∉ (dirName d ++ "=" ++ v).data := by
    rw [hXd]
    intro hm
    rcases List.mem_append.mp hm with hm | hm
    · rw [String.data_append] at hm
      rcases List.mem_append.mp hm with hm | hm
      · exact dirName_no_newline d hm
      · simp at hm
    · exact hv hm
  have hlines : splitLinesChars (mkSingle d v).to_systemd_config.data =
      ["[Service]".data, (dirName d ++ "=" ++ v).data] := by
    rw [to_config_mkSingle, data_join2,
      splitLinesChars_append _ (by decide) _,
      splitLinesChars_of_no_newline _ hXnl]
  have hne : "[Service]".data ≠ (dirName d ++ "=" ++ v).data := by
    intro h
    apply dirName_ne_service_header d
    refine ⟨v.data, ?_⟩
    rw [← hXd, ← h]
  refine ⟨hlines, ?_, ?_⟩
  · rw [hlines]
    have hne2 : ("[Service]".data : List Char) ≠ (dirName d).data ++ '=' :: v.data := by
      intro h
      apply dirName_ne_service_header d
      exact ⟨v.data, by rw [String.data_append, List.append_assoc,
        List.singleton_append, ← h]⟩
    simp [List.count_cons, hne2]
  · intro e hed line hl hp
    rw [hlines] at hl
    rcases List.mem_cons.mp hl with rfl | hl
    · exact dirName_ne_service_header e hp
    · rcases List.mem_cons.mp hl with rfl | hl
      · rw [hXd] at hp
        rcases List.prefix_or_prefix_of_prefix hp (List.prefix_append _ v.data) with h | h
        · exact dirNames_prefix_free e d hed h
        · exact dirNames_prefix_free d e (Ne.symm hed) h
      · simp at hl

/-- C8 witness: the rendering theorem at the IPAddressDeny directive with
value any. -/
theorem C8_witness :
    splitLinesChars ((mkSingle ⟨1, by omega⟩ "any").to_systemd_config.data) =
      ["[Service]".data, ((dirName ⟨1, by omega⟩) ++ "=" ++ "any").data] :=
  (C8_render ⟨1, by omega⟩ "any" (by decide)).1

end SystemdShield
